import Mathlib

/-!
Shallow embedding of the GoToAnimator camera-motion controller
(src/src/util/GoToAnimator.js) and its tick loop.

Conventions of the embedding:
- JavaScript numbers are modelled as rationals; clock readings
  (Date.now) are rationals passed explicitly to each operation.
- The external collaborators (globe geometry, navigator camera access,
  the scheduler) are out of scope of the source file; the great-circle
  functions and the equatorial radius are gathered in a `Geometry`
  record over which the theorems quantify.
- In-place mutation of the camera object is modelled by returning the
  updated camera record; `setAsCamera` pushes are modelled by listing
  the written camera values.
- The early `return` of goTo on zero animation distance is modelled by
  `Option.none`: no run state is produced, hence no tick is scheduled.
-/

namespace GoToAnimator

/-- A geographic position: latitude, longitude (angles) and altitude in
meters, as captured from the navigator camera. -/
structure Position where
  latitude : ℚ
  longitude : ℚ
  altitude : ℚ
  deriving DecidableEq, Repr

/-- A latitude/longitude pair as returned by the great-circle
destination function. -/
structure Location where
  latitude : ℚ
  longitude : ℚ
  deriving DecidableEq, Repr

/-- The navigator camera state. The animator reads it fresh each tick
and writes back selected fields; heading, tilt and roll are carried
along untouched. -/
structure Camera where
  latitude : ℚ
  longitude : ℚ
  altitude : ℚ
  heading : ℚ
  tilt : ℚ
  roll : ℚ
  deriving DecidableEq, Repr

/-- The external great-circle geometry collaborator together with the
equatorial radius of the globe (all supplied by modules outside the
source file under verification). -/
structure Geometry where
  gcDistance : Position → Position → ℚ
  gcAzimuth : Position → Position → ℚ
  gcLocation : Position → ℚ → ℚ → Location
  equatorialRadius : ℚ

/-- The mutable state of one animation run, as set up by goTo
(lines 96-169 of the source). -/
structure RunState where
  startPosition : Position
  targetPosition : Position
  startTime : ℚ
  maxAltitude : ℚ
  maxAltitudeReachedTime : Option ℚ
  panVelocity : ℚ
  rangeVelocity : ℚ
  cancelled : Bool
  deriving DecidableEq, Repr

/-- cancel (source lines 74-76): sets the cancellation flag and does
nothing else; in particular it invokes no callback (it is a pure state
update). -/
def cancel (s : RunState) : RunState :=
  { s with cancelled := true }

/-- Result of one updateRange step: the camera written back via
setAsCamera, the returned continueAnimation Boolean, and the (possibly
updated) maxAltitudeReachedTime field. -/
structure RangeStep where
  camera : Camera
  stillRunning : Bool
  reachedTime : Option ℚ
  deriving DecidableEq, Repr

/-- updateRange (source lines 231-267). The camera argument is the
camera freshly read via getAsCamera at the top of the function; `now`
is the Date.now() reading of this tick. -/
def updateRange (s : RunState) (camera : Camera) (now : ℚ) : RangeStep :=
  match s.maxAltitudeReachedTime with
  | none =>
    let elapsedTime := now - s.startTime
    let nextRange := min (s.startPosition.altitude + s.rangeVelocity * elapsedTime) s.maxAltitude
    let reachedTime := if |camera.altitude - nextRange| < 1 then some now else none
    { camera := { camera with altitude := nextRange }
      stillRunning := true
      reachedTime := reachedTime }
  | some reached =>
    let elapsedTime := now - reached
    let nextRange :=
      if s.targetPosition.altitude < s.maxAltitude then
        max (s.maxAltitude - s.rangeVelocity * elapsedTime) s.targetPosition.altitude
      else
        min (s.maxAltitude + s.rangeVelocity * elapsedTime) s.targetPosition.altitude
    { camera := { camera with altitude := nextRange }
      stillRunning := decide (1 < |nextRange - s.targetPosition.altitude|)
      reachedTime := some reached }

/-- The context altitude chosen by goTo (source lines 118-133): the
chord distance between the projected start and target surface points,
unless the pan distance is within twice the viewport angular size, in
which case it is pinned to the start altitude. -/
def maxAltitudeOf (start : Position) (panDistance chordDistance viewportSize : ℚ) : ℚ :=
  if panDistance ≤ 2 * viewportSize then start.altitude else chordDistance

/-- The total range distance to travel (source lines 143-148). -/
def rangeDistanceOf (start target : Position) (maxAltitude : ℚ) : ℚ :=
  if start.altitude < maxAltitude then
    max 0 (maxAltitude - start.altitude) + |target.altitude - maxAltitude|
  else
    |target.altitude - start.altitude|

/-- The animation duration (source lines 156-163): travelTime, shrunk
when the governing animation distance is below twice the viewport
size, and floored at 1 ms. -/
def animationDurationOf (animationDistance viewportSize travelTime : ℚ) : ℚ :=
  max 1 (if animationDistance < 2 * viewportSize then
    min ((animationDistance / viewportSize) * travelTime) travelTime
  else travelTime)

/-- The duration as the spec words it in a single formula:
min(travelTime, (distance / viewportAngularSize) x travelTime), floored
at 1 ms. Stated from the words of the spec, to be compared with
animationDurationOf, which is translated from the source. -/
def specDuration (distance viewportSize travelTime : ℚ) : ℚ :=
  max 1 (min travelTime ((distance / viewportSize) * travelTime))

/-- goTo, source lines 112-169: from the captured start and resolved
target positions and the externally supplied quantities (great-circle
pan distance, chord distance between the projected surface points,
viewport angular size, travel time, equatorial radius, clock reading)
it either returns none (zero animation distance: the source returns
early at line 153, so no tick is ever scheduled and no callback is
ever invoked) or the run state assigned by lines 96-169. The camera
altitude compared at line 138 equals the captured start altitude,
since startPosition is built from the same camera read. -/
def goToCompute (start target : Position)
    (panDistance chordDistance viewportSize travelTime equatorialRadius now : ℚ) :
    Option RunState :=
  let maxAltitude := maxAltitudeOf start panDistance chordDistance viewportSize
  let rangeDistance := rangeDistanceOf start target maxAltitude
  let animationDistance := max panDistance (rangeDistance / equatorialRadius)
  if animationDistance = 0 then none
  else
    let animationDuration := animationDurationOf animationDistance viewportSize travelTime
    some { startPosition := start
           targetPosition := target
           startTime := now
           maxAltitude := maxAltitude
           maxAltitudeReachedTime := if maxAltitude ≤ start.altitude then some now else none
           panVelocity := panDistance / animationDuration
           rangeVelocity := rangeDistance / animationDuration
           cancelled := false }

/-- Sample camera value used to instantiate universally quantified
theorems at concrete inputs. -/
def wCam : Camera := ⟨0, 0, 500, 0, 0, 0⟩

/-- Sample run state in the rising phase. -/
def wRise : RunState := ⟨⟨0, 0, 100⟩, ⟨10, 10, 2000⟩, 0, 5000, none, 1/300, 1, false⟩

/-- Sample run state in the settling phase. -/
def wSettle : RunState := ⟨⟨0, 0, 100⟩, ⟨10, 10, 2000⟩, 0, 5000, some 50, 1/300, 1, false⟩

/-- Sample start position for goTo instantiations. -/
def wStart : Position := ⟨0, 0, 100⟩

/-- Sample target position for goTo instantiations. -/
def wTarget : Position := ⟨10, 10, 100⟩

/-- The run state goToCompute produces at the sample inputs
(pan distance 10, chord distance 50, viewport size 1, travel time
3000, equatorial radius 1000, clock 0). -/
def wSt : RunState := ⟨wStart, wTarget, 0, 50, some 0, 1/300, 0, false⟩

/-- Result of one updateLocation step: the camera written back via
setAsCamera and the returned Boolean (true while still running). -/
structure LocationStep where
  camera : Camera
  stillRunning : Bool
  deriving DecidableEq, Repr

/-- updateLocation (source lines 270-300). The camera argument is the
camera freshly read via getAsCamera at the top of the function;
currentPosition is the position the caller captured before invoking
the sub-motions; `now` is the Date.now() reading of this tick. -/
def updateLocation (g : Geometry) (s : RunState) (camera : Camera)
    (currentPosition : Position) (now : ℚ) : LocationStep :=
  let elapsedTime := now - s.startTime
  let distanceTravelled := g.gcDistance s.startPosition currentPosition
  let distanceRemaining := g.gcDistance currentPosition s.targetPosition
  let azimuthToTarget := g.gcAzimuth currentPosition s.targetPosition
  let distanceForNow := s.panVelocity * elapsedTime
  let nextDistance := min (distanceForNow - distanceTravelled) distanceRemaining
  let nextLocation := g.gcLocation currentPosition azimuthToTarget nextDistance
  let locationReached :=
    decide (nextDistance < 1 / g.equatorialRadius) || decide (4000 < elapsedTime)
  { camera := { camera with latitude := nextLocation.latitude
                            longitude := nextLocation.longitude }
    stillRunning := !locationReached }

/-- One tick advance (update, source lines 210-228). It reads the
camera once and forms currentPosition from it, runs updateRange (which
rereads the same camera value, nothing having been written in
between), then updateLocation (which rereads the camera updateRange
just wrote and receives the captured currentPosition), and returns
whether either sub-motion wants to continue. -/
structure UpdateStep where
  state : RunState
  writes : List Camera
  stillRunning : Bool
  deriving DecidableEq, Repr

/-- update, source lines 210-228; see UpdateStep. -/
def update (g : Geometry) (s : RunState) (camera : Camera) (now : ℚ) : UpdateStep :=
  let currentPosition : Position := ⟨camera.latitude, camera.longitude, camera.altitude⟩
  let r := updateRange s camera now
  let s2 := { s with maxAltitudeReachedTime := r.reachedTime }
  let l := updateLocation g s2 r.camera currentPosition now
  { state := s2
    writes := [r.camera, l.camera]
    stillRunning := l.stillRunning || r.stillRunning }

/-- Outcome of one scheduled timer callback: the run state afterwards,
the cameras pushed to the navigator, how many times the completion
callback was invoked on this tick, and whether a further tick was
scheduled. -/
structure TickOutcome where
  state : RunState
  writes : List Camera
  completeCalls : Nat
  rescheduled : Bool
  deriving DecidableEq, Repr

/-- timerCallback (source lines 173-186): a tick that observes the
cancellation flag invokes the completion callback (when one was
supplied) and returns without touching the camera and without
rescheduling; otherwise it runs update and either schedules another
tick or invokes the completion callback. -/
def timerCallback (g : Geometry) (hasCallback : Bool) (s : RunState)
    (camera : Camera) (now : ℚ) : TickOutcome :=
  if s.cancelled then
    { state := s, writes := [], completeCalls := if hasCallback then 1 else 0
      rescheduled := false }
  else if (update g s camera now).stillRunning then
    { state := (update g s camera now).state, writes := (update g s camera now).writes
      completeCalls := 0, rescheduled := true }
  else
    { state := (update g s camera now).state, writes := (update g s camera now).writes
      completeCalls := if hasCallback then 1 else 0, rescheduled := false }

/-- The environment of one scheduled tick: the camera the navigator
reports, the clock reading, and whether cancel() was called between
the previous tick and this one. -/
structure TickInput where
  camera : Camera
  now : ℚ
  cancelRequest : Bool
  deriving DecidableEq, Repr

/-- Total number of completion-callback invocations over an entire
run: scheduled ticks fire one after the other while the previous tick
rescheduled, each tick first applying any pending external cancel()
request. -/
def completeCallsInRun (g : Geometry) (hasCallback : Bool) :
    RunState → List TickInput → Nat
  | _, [] => 0
  | s, i :: rest =>
    let s0 := if i.cancelRequest then cancel s else s
    let t := timerCallback g hasCallback s0 i.camera i.now
    t.completeCalls + (if t.rescheduled then completeCallsInRun g hasCallback t.state rest else 0)

/-- Modelled from the spec: the great-circle geometry collaborator of
section 6 of the spec (distance, azimuth, destination; the module
src/geom/Location.js that implements it is not part of the source
under verification), restricted to points on the equator, where the
spherical formulas are exact and rational. The distance between two
equatorial points is the absolute longitude difference in radians, the
azimuth toward a point not to the west is 90 degrees (due east) and
otherwise -90 degrees (due west), and the destination at azimuth 90
and signed angular distance d is the equatorial point d further east —
for a negative d the spherical destination formula moves the point
west, exactly as modelled here. -/
def equatorGeometry (equatorialRadius : ℚ) : Geometry where
  gcDistance a b := |b.longitude - a.longitude|
  gcAzimuth a b := if a.longitude ≤ b.longitude then 90 else -90
  gcLocation p az d := ⟨0, if az = 90 then p.longitude + d else p.longitude - d⟩
  equatorialRadius := equatorialRadius

/-- A handle to the host WorldWindow; the constructor only checks it
for presence and stores it. -/
structure WorldWindowRef where
  handle : Nat
  deriving DecidableEq, Repr

/-- The argument-validation failures the component raises. -/
inductive ArgumentErrorKind where
  | missingWorldWindow
  | missingPosition
  deriving DecidableEq, Repr

/-- The animator fields assigned by the constructor (source lines
34-71). -/
structure Animator where
  wwd : WorldWindowRef
  animationFrequency : ℚ
  travelTime : ℚ
  cancelled : Bool
  deriving DecidableEq, Repr

/-- Constructor (source lines 34-71): a missing world window raises
ArgumentError before any field is assigned; otherwise the animator is
built with its default configuration. -/
def mkGoToAnimator (worldWindow : Option WorldWindowRef) :
    Except ArgumentErrorKind Animator :=
  match worldWindow with
  | none => Except.error ArgumentErrorKind.missingWorldWindow
  | some w =>
    Except.ok { wwd := w, animationFrequency := 20, travelTime := 3000, cancelled := false }

/-- Entry of goTo (source lines 87-99): a missing position raises
ArgumentError at line 88, before any animator field is written; with a
position present, the writes of lines 96-99 proceed (the callback is
stored and the cancellation flag is reset). -/
def goToEntry (a : Animator) (position : Option Position) :
    Except ArgumentErrorKind Animator :=
  match position with
  | none => Except.error ArgumentErrorKind.missingPosition
  | some _ => Except.ok { a with cancelled := false }

/-- Sample pan start position on the equator. -/
def cStart : Position := ⟨0, 0, 0⟩

/-- Sample live position on the equator, half a radian east of the
start. -/
def cCurrent : Position := ⟨0, 1/2, 0⟩

/-- Sample pan target position on the equator. -/
def cTarget : Position := ⟨0, 1, 0⟩

/-- Sample run state for the pan sub-motion over the equator model. -/
def cRun : RunState := ⟨cStart, cTarget, 0, 0, some 0, 1, 0, false⟩

/-- Sample camera matching cCurrent. -/
def cCam : Camera := ⟨0, 1/2, 0, 0, 0, 0⟩

/-- Sample run state whose cancellation flag is set. -/
def cRunCancelled : RunState := ⟨cStart, cTarget, 0, 0, some 0, 1, 0, true⟩

/-- C1: on a non-cancelled tick, updateRange follows the two-phase
profile. While maxAltitudeReachedTime is unset it writes
min(start.altitude + rangeVelocity * elapsed, maxAltitude), sets the
reached time exactly when the camera altitude it just read is within
1 meter of that value, and always reports still running. Once the
reached time is set it writes max(maxAltitude - rangeVelocity *
elapsedSinceReached, target.altitude) when maxAltitude >
target.altitude and min(maxAltitude + rangeVelocity *
elapsedSinceReached, target.altitude) otherwise, reports still running
iff the written altitude differs from target.altitude by more than
1 meter, and the written altitude never passes target.altitude. -/
theorem updateRange_two_phase (s : RunState) (cam : Camera) (now : ℚ) :
    (s.maxAltitudeReachedTime = none →
      (updateRange s cam now).camera.altitude =
        min (s.startPosition.altitude + s.rangeVelocity * (now - s.startTime)) s.maxAltitude ∧
      (updateRange s cam now).stillRunning = true ∧
      ((updateRange s cam now).reachedTime = some now ↔
        |cam.altitude -
          min (s.startPosition.altitude + s.rangeVelocity * (now - s.startTime)) s.maxAltitude| < 1) ∧
      ((updateRange s cam now).reachedTime = none ↔
        ¬ |cam.altitude -
          min (s.startPosition.altitude + s.rangeVelocity * (now - s.startTime)) s.maxAltitude| < 1))
    ∧
    (∀ reached, s.maxAltitudeReachedTime = some reached →
      (updateRange s cam now).camera.altitude =
        (if s.targetPosition.altitude < s.maxAltitude then
          max (s.maxAltitude - s.rangeVelocity * (now - reached)) s.targetPosition.altitude
        else
          min (s.maxAltitude + s.rangeVelocity * (now - reached)) s.targetPosition.altitude) ∧
      ((updateRange s cam now).stillRunning = true ↔
        1 < |(updateRange s cam now).camera.altitude - s.targetPosition.altitude|) ∧
      (s.targetPosition.altitude < s.maxAltitude →
        s.targetPosition.altitude ≤ (updateRange s cam now).camera.altitude) ∧
      (¬ s.targetPosition.altitude < s.maxAltitude →
        (updateRange s cam now).camera.altitude ≤ s.targetPosition.altitude)) := by
  constructor
  · intro h
    refine ⟨?_, ?_, ?_, ?_⟩ <;> simp only [updateRange, h]
    · split <;> simp_all
    · split <;> simp_all
  · intro reached h
    refine ⟨?_, ?_, ?_, ?_⟩ <;> simp only [updateRange, h]
    · simp only [decide_eq_true_eq]
    · intro hd
      simp only [if_pos hd]
      exact le_max_right _ _
    · intro hd
      simp only [if_neg hd]
      exact min_le_right _ _

/-- Witness for C1: the two-phase theorem applied to a concrete rising
state and a concrete settling state. -/
theorem updateRange_two_phase_witness :
    (updateRange wRise wCam 100).camera.altitude =
      min (wRise.startPosition.altitude + wRise.rangeVelocity * (100 - wRise.startTime))
        wRise.maxAltitude ∧
    (updateRange wSettle wCam 100).camera.altitude =
      (if wSettle.targetPosition.altitude < wSettle.maxAltitude then
        max (wSettle.maxAltitude - wSettle.rangeVelocity * (100 - 50)) wSettle.targetPosition.altitude
      else
        min (wSettle.maxAltitude + wSettle.rangeVelocity * (100 - 50)) wSettle.targetPosition.altitude) :=
  ⟨((updateRange_two_phase wRise wCam 100).1 rfl).1,
   ((updateRange_two_phase wSettle wCam 100).2 50 rfl).1⟩

/-- The source duration computation coincides with the single spec
formula whenever the viewport size is positive and the travel time is
nonnegative. -/
theorem animationDurationOf_eq_specDuration (d v T : ℚ) (hv : 0 < v) (hT : 0 ≤ T) :
    animationDurationOf d v T = specDuration d v T := by
  unfold animationDurationOf specDuration
  split
  · exact congrArg (max 1) (min_comm _ _)
  · next hd =>
    rw [not_lt] at hd
    have h1 : (1 : ℚ) ≤ d / v := by
      rw [le_div_iff₀ hv]
      nlinarith
    rw [min_eq_left (le_mul_of_one_le_left hT h1)]

/-- rangeDistanceOf written without the redundant floor at 0: in the
branch where maxAltitude exceeds the start altitude the difference is
already nonnegative. -/
theorem rangeDistanceOf_spec (start target : Position) (m : ℚ) :
    rangeDistanceOf start target m =
      if start.altitude < m then (m - start.altitude) + |target.altitude - m|
      else |target.altitude - start.altitude| := by
  unfold rangeDistanceOf
  split
  · next hlt => rw [max_eq_right (sub_nonneg.mpr (le_of_lt hlt))]
  · rfl

/-- The duration is at least 1 ms. -/
theorem one_le_animationDurationOf (d v T : ℚ) : 1 ≤ animationDurationOf d v T :=
  le_max_left _ _

/-- C2: for every goTo call that schedules ticks, with a positive
viewport size and nonnegative travel time: when panDistance is within
twice the viewport size the max altitude is pinned to the start
altitude; the pan and range velocities are the pan distance and the
range distance each divided by the common duration
min(travelTime, (animationDistance / viewportSize) x travelTime)
floored at 1 ms, where animationDistance = max(panDistance,
rangeDistance / equatorialRadius) and rangeDistance is
(maxAltitude - start.altitude) + |target.altitude - maxAltitude| when
maxAltitude > start.altitude and |target.altitude - start.altitude|
otherwise — so both sub-motions are yoked to the same duration. -/
theorem goTo_velocities (start target : Position)
    (panDistance chordDistance viewportSize travelTime R now : ℚ)
    (hv : 0 < viewportSize) (hT : 0 ≤ travelTime) (st : RunState)
    (h : goToCompute start target panDistance chordDistance viewportSize travelTime R now =
      some st) :
    (panDistance ≤ 2 * viewportSize → st.maxAltitude = start.altitude) ∧
    st.panVelocity = panDistance /
      specDuration (max panDistance (rangeDistanceOf start target st.maxAltitude / R))
        viewportSize travelTime ∧
    st.rangeVelocity =
      (if start.altitude < st.maxAltitude then
        (st.maxAltitude - start.altitude) + |target.altitude - st.maxAltitude|
      else |target.altitude - start.altitude|) /
      specDuration (max panDistance (rangeDistanceOf start target st.maxAltitude / R))
        viewportSize travelTime := by
  rw [goToCompute] at h
  split at h
  · exact absurd h (by simp)
  · rw [Option.some_inj] at h
    subst h
    refine ⟨?_, ?_, ?_⟩
    · intro hloc
      simp only [maxAltitudeOf, if_pos hloc]
    · simp only [animationDurationOf_eq_specDuration _ _ _ hv hT]
    · simp only [animationDurationOf_eq_specDuration _ _ _ hv hT, ← rangeDistanceOf_spec]

/-- Witness for C2: the pan velocity of the run state computed at the
sample inputs equals the sample pan distance divided by the spec
duration formula. -/
theorem goTo_velocities_witness :
    wSt.panVelocity = 10 /
      specDuration (max 10 (rangeDistanceOf wStart wTarget wSt.maxAltitude / 1000)) 1 3000 :=
  (goTo_velocities wStart wTarget 10 50 1 3000 1000 0 (by decide) (by decide) wSt
    (by norm_num [goToCompute, maxAltitudeOf, rangeDistanceOf, animationDurationOf,
      wStart, wTarget, wSt])).2.1

/-- C5 counterexample: at pan distance 10, chord distance 50, viewport
size 1 the move is long, so maxAltitude is the chord distance 50,
which is below the start altitude 100: the claimed invariant
maxAltitude >= start.altitude fails. -/
theorem goTo_invariants_cex :
    (goToCompute wStart wTarget 10 50 1 3000 1000 0).map RunState.maxAltitude = some 50 ∧
    wStart.altitude = 100 ∧ ¬ (100 : ℚ) ≤ 50 := by
  norm_num [goToCompute, maxAltitudeOf, rangeDistanceOf, animationDurationOf, wStart, wTarget]

/-- C5 amended: for every goTo call that schedules ticks (with the
externally supplied pan distance nonnegative, as a great-circle
distance is), panVelocity >= 0 and rangeVelocity >= 0; and either
maxAltitude >= start.altitude, or — when the computed chord distance
falls below the start altitude on a long move, which the source does
not clamp — maxAltitudeReachedTime is set immediately at line 138, so
the animator starts directly in the settling phase. -/
theorem goTo_invariants (start target : Position)
    (panDistance chordDistance viewportSize travelTime R now : ℚ)
    (hpan : 0 ≤ panDistance) (st : RunState)
    (h : goToCompute start target panDistance chordDistance viewportSize travelTime R now =
      some st) :
    0 ≤ st.panVelocity ∧ 0 ≤ st.rangeVelocity ∧
    (start.altitude ≤ st.maxAltitude ∨ st.maxAltitudeReachedTime = some now) := by
  rw [goToCompute] at h
  split at h
  · exact absurd h (by simp)
  · rw [Option.some_inj] at h
    subst h
    have hdur : (0 : ℚ) < animationDurationOf
        (max panDistance
          (rangeDistanceOf start target
            (maxAltitudeOf start panDistance chordDistance viewportSize) / R))
        viewportSize travelTime :=
      lt_of_lt_of_le one_pos (one_le_animationDurationOf _ _ _)
    have hrange : 0 ≤ rangeDistanceOf start target
        (maxAltitudeOf start panDistance chordDistance viewportSize) := by
      rw [rangeDistanceOf]
      split
      · exact add_nonneg (le_max_left _ _) (abs_nonneg _)
      · exact abs_nonneg _
    refine ⟨div_nonneg hpan (le_of_lt hdur), div_nonneg hrange (le_of_lt hdur), ?_⟩
    by_cases hle : start.altitude ≤ maxAltitudeOf start panDistance chordDistance viewportSize
    · exact Or.inl hle
    · exact Or.inr (by simp only [if_pos (le_of_lt (not_le.mp hle))])

/-- Witness for C5: the amended invariant theorem applied at the
sample inputs. -/
theorem goTo_invariants_witness :
    0 ≤ wSt.panVelocity ∧ 0 ≤ wSt.rangeVelocity ∧
    (wStart.altitude ≤ wSt.maxAltitude ∨ wSt.maxAltitudeReachedTime = some 0) :=
  goTo_invariants wStart wTarget 10 50 1 3000 1000 0 (by decide) wSt
    (by norm_num [goToCompute, maxAltitudeOf, rangeDistanceOf, animationDurationOf,
      wStart, wTarget, wSt])

/-- C7: when the resolved target equals the captured start exactly
(the great-circle pan distance is 0 and the altitudes coincide) and
the viewport size is nonnegative, goTo returns none: the early return
at line 153 fires, so no tick is scheduled and the completion callback
is never invoked. -/
theorem goTo_degenerate (start target : Position)
    (chordDistance viewportSize travelTime R now : ℚ)
    (hv : 0 ≤ viewportSize) (halt : target.altitude = start.altitude) :
    goToCompute start target 0 chordDistance viewportSize travelTime R now = none := by
  have hloc : (0 : ℚ) ≤ 2 * viewportSize := by linarith
  simp only [goToCompute, maxAltitudeOf, if_pos hloc, rangeDistanceOf, halt]
  norm_num

/-- Witness for C7: a concrete degenerate call returns none. -/
theorem goTo_degenerate_witness :
    goToCompute ⟨0, 0, 100⟩ ⟨0, 0, 100⟩ 0 50 1 3000 1000 7 = none :=
  goTo_degenerate ⟨0, 0, 100⟩ ⟨0, 0, 100⟩ 50 1 3000 1000 7 (by decide) rfl

/-- The pan sub-motion reports done exactly when the step distance is
below the angular equivalent of 1 meter or the 4000 ms cap has been
exceeded. -/
theorem updateLocation_done_iff (g : Geometry) (s : RunState) (cam : Camera)
    (cur : Position) (now : ℚ) :
    (updateLocation g s cam cur now).stillRunning = false ↔
      (min (s.panVelocity * (now - s.startTime) - g.gcDistance s.startPosition cur)
          (g.gcDistance cur s.targetPosition) < 1 / g.equatorialRadius ∨
        4000 < now - s.startTime) := by
  simp only [updateLocation, Bool.not_eq_eq_eq_not, Bool.not_false, Bool.or_eq_true,
    decide_eq_true_eq]

/-- C3: on every tick the pan sub-motion computes stepDistance =
min(panVelocity x elapsedSinceStart - distanceTravelled,
distanceRemaining), writes the great-circle destination at bearing
azimuthToTarget and distance stepDistance from the live position into
the camera latitude and longitude, and reports done exactly when
stepDistance < 1 / equatorialRadius (the angular equivalent of 1 meter
on the globe) or the elapsed time since run start exceeds the 4000 ms
safety cap. -/
theorem updateLocation_step (g : Geometry) (s : RunState) (cam : Camera)
    (cur : Position) (now : ℚ) :
    (updateLocation g s cam cur now).camera.latitude =
      (g.gcLocation cur (g.gcAzimuth cur s.targetPosition)
        (min (s.panVelocity * (now - s.startTime) - g.gcDistance s.startPosition cur)
          (g.gcDistance cur s.targetPosition))).latitude ∧
    (updateLocation g s cam cur now).camera.longitude =
      (g.gcLocation cur (g.gcAzimuth cur s.targetPosition)
        (min (s.panVelocity * (now - s.startTime) - g.gcDistance s.startPosition cur)
          (g.gcDistance cur s.targetPosition))).longitude ∧
    ((updateLocation g s cam cur now).stillRunning = false ↔
      (min (s.panVelocity * (now - s.startTime) - g.gcDistance s.startPosition cur)
          (g.gcDistance cur s.targetPosition) < 1 / g.equatorialRadius ∨
        4000 < now - s.startTime)) :=
  ⟨rfl, rfl, updateLocation_done_iff g s cam cur now⟩

/-- C4 counterexample: a tick of the pan sub-motion over the
equatorial great-circle model whose budget is exhausted (panVelocity x
elapsed = 1/10, below the 1/2 radian already travelled) still moves
the camera: the written longitude is 1/10, two fifths of a radian west
of the live longitude 1/2. -/
theorem updateLocation_budget_cex :
    cRun.panVelocity * ((1/10 : ℚ) - cRun.startTime) ≤
      (equatorGeometry 1000).gcDistance cRun.startPosition cCurrent ∧
    (updateLocation (equatorGeometry 1000) cRun cCam cCurrent (1/10)).camera.longitude
      = 1/10 ∧
    cCam.longitude = 1/2 ∧ ((1/10 : ℚ) ≠ 1/2) := by
  norm_num [updateLocation, equatorGeometry, cRun, cStart, cCurrent, cTarget, cCam, min_def,
    abs_of_nonneg]

/-- C4 amended (the claim as corrected): over the equatorial
great-circle model, whenever the pan budget is exhausted — panVelocity
x elapsedSinceStart at most the distance already travelled — the step
distance is nonpositive, hence below the 1-meter angular threshold for
a positive radius, so the sub-motion reports done; and when the budget
is exhausted exactly the step distance is zero and the destination at
distance zero is the live position itself, so the camera does not
move. A strictly negative step distance instead moves the camera
backward along the bearing, as the counterexample shows. -/
theorem updateLocation_budget (R : ℚ) (s : RunState) (cam : Camera)
    (cur : Position) (now : ℚ) (hR : 0 < R)
    (hb : s.panVelocity * (now - s.startTime) ≤
      (equatorGeometry R).gcDistance s.startPosition cur) :
    (updateLocation (equatorGeometry R) s cam cur now).stillRunning = false ∧
    (s.panVelocity * (now - s.startTime) =
        (equatorGeometry R).gcDistance s.startPosition cur →
      cam.latitude = 0 → cam.longitude = cur.longitude →
      (updateLocation (equatorGeometry R) s cam cur now).camera.latitude = cam.latitude ∧
      (updateLocation (equatorGeometry R) s cam cur now).camera.longitude = cam.longitude) := by
  simp only [equatorGeometry] at hb
  have h1R : 0 < 1 / R := by positivity
  have hstep : min (s.panVelocity * (now - s.startTime) -
      |cur.longitude - s.startPosition.longitude|)
      |s.targetPosition.longitude - cur.longitude| < 1 / R :=
    lt_of_le_of_lt (le_trans (min_le_left _ _) (by linarith)) h1R
  constructor
  · exact (updateLocation_done_iff (equatorGeometry R) s cam cur now).mpr (Or.inl hstep)
  · intro heq hlat hlon
    simp only [equatorGeometry] at heq
    have hz : s.panVelocity * (now - s.startTime) -
        |cur.longitude - s.startPosition.longitude| = 0 := by
      rw [heq]; ring
    have hmin : min (s.panVelocity * (now - s.startTime) -
        |cur.longitude - s.startPosition.longitude|)
        |s.targetPosition.longitude - cur.longitude| = 0 := by
      rw [hz]
      exact min_eq_left (abs_nonneg _)
    constructor
    · simp [updateLocation, equatorGeometry, hlat]
    · simp only [updateLocation, equatorGeometry, hmin, hlon]
      split <;> norm_num

/-- Witness for C4: the amended theorem applied at a concrete
exactly-exhausted tick. -/
theorem updateLocation_budget_witness :
    (updateLocation (equatorGeometry 1000) cRun cCam cCurrent (1/2)).stillRunning = false ∧
    ((updateLocation (equatorGeometry 1000) cRun cCam cCurrent (1/2)).camera.latitude
        = cCam.latitude ∧
      (updateLocation (equatorGeometry 1000) cRun cCam cCurrent (1/2)).camera.longitude
        = cCam.longitude) :=
  have h := updateLocation_budget 1000 cRun cCam cCurrent (1/2) (by decide)
    (by norm_num [equatorGeometry, cRun, cStart, cCurrent, abs_of_nonneg])
  ⟨h.1, h.2 (by norm_num [equatorGeometry, cRun, cStart, cCurrent, abs_of_nonneg]) rfl rfl⟩

/-- C6: cancel only sets the cancellation flag — every other run-state
field is untouched and, being a pure state update, it invokes no
callback — and is idempotent; a tick that observes the flag invokes
the completion callback exactly once when one was supplied (zero times
otherwise), pushes no camera write, and schedules no further tick. -/
theorem cancel_observed (g : Geometry) (hasCallback : Bool) (s : RunState)
    (cam : Camera) (now : ℚ) :
    cancel s = { s with cancelled := true } ∧
    cancel (cancel s) = cancel s ∧
    (s.cancelled = true →
      (timerCallback g hasCallback s cam now).writes = [] ∧
      (timerCallback g hasCallback s cam now).completeCalls =
        (if hasCallback then 1 else 0) ∧
      (timerCallback g hasCallback s cam now).rescheduled = false) := by
  refine ⟨rfl, rfl, ?_⟩
  intro h
  simp [timerCallback, h]

/-- Witness for C6: a tick on a concrete cancelled run state with a
callback supplied. -/
theorem cancel_observed_witness :
    (timerCallback (equatorGeometry 1000) true cRunCancelled cCam 5).writes = [] ∧
    (timerCallback (equatorGeometry 1000) true cRunCancelled cCam 5).completeCalls =
      (if true then 1 else 0) ∧
    (timerCallback (equatorGeometry 1000) true cRunCancelled cCam 5).rescheduled = false :=
  (cancel_observed (equatorGeometry 1000) true cRunCancelled cCam 5).2.2 rfl

/-- Any single tick invokes the completion callback at most once, and
never when it reschedules itself. -/
theorem timerCallback_calls (g : Geometry) (hb : Bool) (s : RunState)
    (cam : Camera) (now : ℚ) :
    (timerCallback g hb s cam now).completeCalls ≤ 1 ∧
    ((timerCallback g hb s cam now).rescheduled = true →
      (timerCallback g hb s cam now).completeCalls = 0) := by
  unfold timerCallback
  split
  · refine ⟨?_, ?_⟩
    · split <;> simp
    · intro h
      simp at h
  · split
    · simp
    · refine ⟨?_, ?_⟩
      · split <;> simp
      · intro h
        simp at h

/-- C8: over the entire tick sequence of a run — however long the
trace of tick environments, and wherever external cancel() requests
fall in it — the completion callback is invoked at most once. -/
theorem completeCalls_at_most_one (g : Geometry) (hasCallback : Bool)
    (s : RunState) (trace : List TickInput) :
    completeCallsInRun g hasCallback s trace ≤ 1 := by
  induction trace generalizing s with
  | nil => simp [completeCallsInRun]
  | cons i rest ih =>
    rw [completeCallsInRun]
    have h := timerCallback_calls g hasCallback
      (if i.cancelRequest then cancel s else s) i.camera i.now
    by_cases hr : (timerCallback g hasCallback
        (if i.cancelRequest then cancel s else s) i.camera i.now).rescheduled = true
    · rw [if_pos hr, h.2 hr]
      simpa using ih _
    · rw [if_neg hr]
      simpa using h.1

/-- C9: constructing the animator without a world window, and entering
goTo without a position, each produce the InvalidArgument error as the
synchronous result; the check is the first step of either operation,
so the error is produced before any animator field is written and no
animator state is returned alongside it. -/
theorem argument_checks (a : Animator) :
    mkGoToAnimator none = Except.error ArgumentErrorKind.missingWorldWindow ∧
    goToEntry a none = Except.error ArgumentErrorKind.missingPosition :=
  ⟨rfl, rfl⟩

/-- C10: each sub-motion touches only its own camera fields: the
camera updateRange writes equals the camera it read with only the
altitude field replaced, and the camera updateLocation writes equals
the camera it read with only the latitude and longitude fields
replaced — every other field (including heading, tilt and roll) is
carried through unchanged. -/
theorem sub_motions_own_fields (g : Geometry) (s : RunState) (cam : Camera)
    (cur : Position) (now : ℚ) :
    (updateRange s cam now).camera =
      { cam with altitude := (updateRange s cam now).camera.altitude } ∧
    (updateLocation g s cam cur now).camera =
      { cam with latitude := (updateLocation g s cam cur now).camera.latitude
                 longitude := (updateLocation g s cam cur now).camera.longitude } := by
  constructor
  · match h : s.maxAltitudeReachedTime with
    | none => simp [updateRange, h]
    | some t => simp [updateRange, h]
  · rfl

end GoToAnimator
